import Mathlib

/-!
Verification development for `solar_cf_tool.py`, a single-pipeline batch tool
that estimates annual solar yield metrics for a list of sites.

The embedding is a shallow one over exact rationals:

* Python floats are modelled by `ℚ`; `round(x, n)` by `pyRound`.
* The external climate-data retrieval and irradiance transposition
  (`pvlib.iotools.get_pvgis_tmy`, `pvlib.solarposition.get_solarposition`,
  `pvlib.irradiance.get_total_irradiance`) are opaque collaborators; they are
  modelled by an oracle `ℕ → Fetch` giving, per site index, either the hourly
  GHI and plane-of-array series or an exception message.
* The uploaded spreadsheet is modelled by `SiteFrame` (a column-name list plus
  rows); `row['name']` access raises a `KeyError` exactly when the column is
  absent, as in pandas.
* The result table built by `pd.DataFrame(results)` and exported via
  `to_excel(index=False)` is modelled structurally by `ResultFrame`
  (first-occurrence column union, missing keys becoming null cells).
-/

set_option autoImplicit false
set_option maxRecDepth 100000

namespace SolarCF

/-- Exact-rational idealization of Python `round(x, n)`: scale by `10 ^ n`,
round to the nearest integer, scale back.  Mathlib's `round` resolves ties
upward while Python resolves ties to even, but no quantity in this
development falls exactly on a tie, so the two agree on every instance
used here. -/
def pyRound (q : ℚ) (n : ℕ) : ℚ := (round (q * 10 ^ n) : ℚ) / 10 ^ n

/-- One row of the uploaded site list: the `name`, `Lat` and `Long` cells
(`site_df.iterrows()` values, lines 50–53 of `solar_cf_tool.py`). -/
structure SiteRow where
  name : String
  lat : ℚ
  lon : ℚ
  deriving DecidableEq

/-- The uploaded spreadsheet as parsed by `pd.read_excel`: a list of column
names plus the data rows.  Accessing `row[c]` in the per-site loop raises a
`KeyError` exactly when `c` is not among `cols`. -/
structure SiteFrame where
  cols : List String
  rows : List SiteRow
  deriving DecidableEq

/-- Run parameters from the sidebar sliders (lines 27–28): tilt angle in
degrees and performance ratio.  The tilt is consumed only by the external
transposition model, so it does not occur in the arithmetic below. -/
structure Config where
  tilt : ℚ
  pr : ℚ
  deriving DecidableEq

/-- Outcome of the external retrieval/transposition for one site (the fallible
prefix of the `try` block, lines 55–76): on success the hourly GHI series
`tmy_data['ghi']` and the hourly plane-of-array series
`poa_irradiance['poa_global']`, both in Wh/m²; on failure the exception
text `e`. -/
inductive Fetch where
  | ok (ghiSeries poaSeries : List ℚ)
  | err (msg : String)
  deriving DecidableEq

/-- `annual_gii = poa_irradiance['poa_global'].sum() / 1000` (line 78). -/
def annualGII (poaSeries : List ℚ) : ℚ := poaSeries.sum / 1000

/-- `annual_ghi = tmy_data['ghi'].sum() / 1000` (line 79). -/
def annualGHI (ghiSeries : List ℚ) : ℚ := ghiSeries.sum / 1000

/-- `specific_prod = annual_gii * PR` (line 80). -/
def specificProd (cfg : Config) (poaSeries : List ℚ) : ℚ :=
  annualGII poaSeries * cfg.pr

/-- `uplift = ((annual_gii / annual_ghi) - 1) * 100` (line 81). -/
def upliftPct (ghiSeries poaSeries : List ℚ) : ℚ :=
  ((annualGII poaSeries / annualGHI ghiSeries) - 1) * 100

/-- `cf_percent = round((specific_prod / 8760) * 100, 3)` (line 82): computed
from the unrounded specific production. -/
def cfPercent (cfg : Config) (poaSeries : List ℚ) : ℚ :=
  pyRound ((specificProd cfg poaSeries / 8760) * 100) 3

/-- The inline message emitted by `st.error(f"❌ Failed for {name}: {e}")`
(line 104). -/
def failMsg (name msg : String) : String :=
  "❌ Failed for " ++ name ++ ": " ++ msg

/-- One per-site result.  The numeric fields mirror the dict appended to
`results` (success: lines 84–93; failure: lines 96–103).  In the failure dict
the `GHI (kWh/m²)` and `Uplift (%)` keys are absent and the other numeric
keys hold `None`; in the `pd.DataFrame` both become null cells, modelled
uniformly by `none`.  The record itself has no error column; `error` here
models the inline `st.error` message displayed for the site (`none` on
success). -/
structure SiteResult where
  site : String
  lat : ℚ
  lon : ℚ
  ghi : Option ℚ
  gii : Option ℚ
  uplift : Option ℚ
  specificProduction : Option ℚ
  cf : Option ℚ
  error : Option String
  deriving DecidableEq

/-- The body of the per-site loop after the row cells have been read
(lines 54–104): on fetch success, the arithmetic of lines 78–93 with the
presentation roundings; on any exception, the all-null failure record plus
the inline error message. -/
def processSite (cfg : Config) (row : SiteRow) (fetch : Fetch) : SiteResult :=
  match fetch with
  | Fetch.ok ghiSeries poaSeries =>
    { site := row.name
      lat := row.lat
      lon := row.lon
      ghi := some (pyRound (annualGHI ghiSeries) 1)
      gii := some (pyRound (annualGII poaSeries) 1)
      uplift := some (pyRound (upliftPct ghiSeries poaSeries) 1)
      specificProduction := some (pyRound (specificProd cfg poaSeries) 1)
      cf := some (cfPercent cfg poaSeries)
      error := none }
  | Fetch.err msg =>
    { site := row.name
      lat := row.lat
      lon := row.lon
      ghi := none
      gii := none
      uplift := none
      specificProduction := none
      cf := none
      error := some (failMsg row.name msg) }

/-- The per-site loop (lines 50–108), sequential over the rows.  For each row
the cells `row['name']`, `row['Lat']`, `row['Long']` are read first, outside
the `try` block: a missing column raises a `KeyError` that aborts the whole
run (`Except.error`).  Otherwise the site is processed — a fetch failure is
caught inside the loop and yields a failure record — and the loop continues
with the next row.  `i` is the running row index used to consult the fetch
oracle. -/
def runAux (cfg : Config) (cols : List String) (oracle : ℕ → Fetch) :
    ℕ → List SiteRow → Except String (List SiteResult)
  | _, [] => Except.ok []
  | i, row :: rest =>
    if "name" ∈ cols then
      if "Lat" ∈ cols then
        if "Long" ∈ cols then
          match runAux cfg cols oracle (i + 1) rest with
          | Except.ok rs => Except.ok (processSite cfg row (oracle i) :: rs)
          | Except.error e => Except.error e
        else Except.error "KeyError: Long"
      else Except.error "KeyError: Lat"
    else Except.error "KeyError: name"

/-- The whole analysis run over an uploaded frame (the `run_button` branch,
lines 43–112): iterate the per-site loop from index 0 and collect the
ResultSet.  An uncaught `KeyError` from a missing column makes the run end
with no ResultSet at all. -/
def runAnalysis (cfg : Config) (frame : SiteFrame) (oracle : ℕ → Fetch) :
    Except String (List SiteResult) :=
  runAux cfg frame.cols oracle 0 frame.rows

/-- The run seen from the upload step: `pd.read_excel(uploaded_file)`
(line 38) either yields a parsed frame or raises a parse exception; an
exception aborts the script before the per-site loop, otherwise the loop
runs on the parsed frame. -/
def fullRun (cfg : Config) (load : Except String SiteFrame) (oracle : ℕ → Fetch) :
    Except String (List SiteResult) :=
  match load with
  | Except.error e => Except.error e
  | Except.ok frame => runAnalysis cfg frame oracle

/-- The ResultSet produced when every row access succeeds: one
`processSite` record per input row, in input order. -/
def runResults (cfg : Config) (oracle : ℕ → Fetch) :
    ℕ → List SiteRow → List SiteResult
  | _, [] => []
  | i, row :: rest => processSite cfg row (oracle i) :: runResults cfg oracle (i + 1) rest

/-- `valid_df = result_df.dropna(subset=['CF (%)'])` (line 139): the rows
whose CF cell is not null. -/
def validResults (rs : List SiteResult) : List SiteResult :=
  rs.filter (fun r => r.cf.isSome)

/-- `cf_values = valid_df['CF (%)']` (line 140): the series consumed by the
histogram (line 147) and the boxplot (line 155). -/
def cfValues (rs : List SiteResult) : List ℚ :=
  (validResults rs).filterMap (fun r => r.cf)

/-- Insert one `(site, cf)` bar into a list sorted by descending CF. -/
def insertDesc (p : String × ℚ) : List (String × ℚ) → List (String × ℚ)
  | [] => [p]
  | q :: rest => if q.2 ≤ p.2 then p :: q :: rest else q :: insertDesc p rest

/-- Sort `(site, cf)` bars by descending CF. -/
def sortDesc : List (String × ℚ) → List (String × ℚ)
  | [] => []
  | p :: rest => insertDesc p (sortDesc rest)

/-- `sorted_cf_df = valid_df.sort_values('CF (%)', ascending=False)` with the
bar chart drawing `(Site, CF (%))` per valid row (lines 161–163). -/
def barChartData (rs : List SiteResult) : List (String × ℚ) :=
  sortDesc ((validResults rs).filterMap (fun r => r.cf.map (fun c => (r.site, c))))

/-! ### Helper lemmas about the per-site loop -/

theorem runAux_ok (cfg : Config) (cols : List String) (oracle : ℕ → Fetch)
    (hn : "name" ∈ cols) (hla : "Lat" ∈ cols) (hlo : "Long" ∈ cols)
    (i : ℕ) (rows : List SiteRow) :
    runAux cfg cols oracle i rows = Except.ok (runResults cfg oracle i rows) := by
  induction rows generalizing i with
  | nil => rfl
  | cons row rest ih => simp [runAux, runResults, hn, hla, hlo, ih]

theorem runResults_length (cfg : Config) (oracle : ℕ → Fetch)
    (i : ℕ) (rows : List SiteRow) :
    (runResults cfg oracle i rows).length = rows.length := by
  induction rows generalizing i with
  | nil => rfl
  | cons row rest ih => simp [runResults, ih]

theorem runResults_map_site (cfg : Config) (oracle : ℕ → Fetch)
    (i : ℕ) (rows : List SiteRow) :
    (runResults cfg oracle i rows).map SiteResult.site = rows.map SiteRow.name := by
  induction rows generalizing i with
  | nil => rfl
  | cons row rest ih => cases h : oracle i <;> simp [runResults, processSite, h, ih]

theorem runResults_mem (cfg : Config) (oracle : ℕ → Fetch)
    (i : ℕ) (rows : List SiteRow) (r : SiteResult)
    (hr : r ∈ runResults cfg oracle i rows) :
    ∃ j row, row ∈ rows ∧ r = processSite cfg row (oracle j) := by
  induction rows generalizing i with
  | nil => cases hr
  | cons row rest ih =>
    rcases List.mem_cons.mp hr with h | h
    · exact ⟨i, row, List.mem_cons_self _ _, h⟩
    · obtain ⟨j, row', hrow', heq⟩ := ih (i + 1) h
      exact ⟨j, row', List.mem_cons_of_mem _ hrow', heq⟩

/-! ### Helper lemmas about `pyRound` -/

theorem pyRound_nonneg (n : ℕ) {q : ℚ} (h : 0 ≤ q) : 0 ≤ pyRound q n := by
  unfold pyRound
  apply div_nonneg _ (by positivity)
  have hq : (0 : ℚ) ≤ q * 10 ^ n + 1 / 2 := by
    have := mul_nonneg h (by positivity : (0 : ℚ) ≤ 10 ^ n)
    linarith
  have : (0 : ℤ) ≤ ⌊q * 10 ^ n + 1 / 2⌋ := Int.le_floor.mpr (by exact_mod_cast hq)
  rw [round_eq]
  exact_mod_cast this

theorem pyRound_le_hundred (n : ℕ) {q : ℚ} (h : q ≤ 100) : pyRound q n ≤ 100 := by
  unfold pyRound
  rw [div_le_iff₀ (by positivity : (0 : ℚ) < 10 ^ n), round_eq]
  have hlt : (q * 10 ^ n + 1 / 2 : ℚ) < ((100 * 10 ^ n + 1 : ℤ) : ℚ) := by
    push_cast
    have := mul_le_mul_of_nonneg_right h (by positivity : (0 : ℚ) ≤ 10 ^ n)
    linarith
  have : ⌊q * 10 ^ n + 1 / 2⌋ < 100 * 10 ^ n + 1 := Int.floor_lt.mpr hlt
  have hle : ⌊q * 10 ^ n + 1 / 2⌋ ≤ 100 * 10 ^ n := by omega
  calc (⌊q * 10 ^ n + 1 / 2⌋ : ℚ) ≤ ((100 * 10 ^ n : ℤ) : ℚ) := by exact_mod_cast hle
    _ = 100 * 10 ^ n := by push_cast; ring

/-! ### Claims C1–C3, C9 -/

/-- C1: a site whose external retrieval or computation raises a failure yields
a SiteResult whose numeric fields are all null together with a non-empty
inline error description, and the run still completes one result per site for
the whole input, whatever the fetch oracle does (no abort, no retry). -/
theorem failed_site_is_all_null_and_does_not_halt
    (cfg : Config) (row : SiteRow) (msg : String)
    (frame : SiteFrame) (oracle : ℕ → Fetch)
    (hn : "name" ∈ frame.cols) (hla : "Lat" ∈ frame.cols) (hlo : "Long" ∈ frame.cols) :
    ((processSite cfg row (Fetch.err msg)).ghi = none ∧
      (processSite cfg row (Fetch.err msg)).gii = none ∧
      (processSite cfg row (Fetch.err msg)).uplift = none ∧
      (processSite cfg row (Fetch.err msg)).specificProduction = none ∧
      (processSite cfg row (Fetch.err msg)).cf = none) ∧
    (∃ e, (processSite cfg row (Fetch.err msg)).error = some e ∧ 0 < e.length) ∧
    (runAnalysis cfg frame oracle = Except.ok (runResults cfg oracle 0 frame.rows) ∧
      (runResults cfg oracle 0 frame.rows).length = frame.rows.length) := by
  refine ⟨⟨rfl, rfl, rfl, rfl, rfl⟩, ⟨failMsg row.name msg, rfl, ?_⟩,
    runAux_ok cfg frame.cols oracle hn hla hlo 0 frame.rows,
    runResults_length cfg oracle 0 frame.rows⟩
  have h13 : 0 < "❌ Failed for ".length := by decide
  simp only [failMsg, String.length_append]
  omega

/-- Closed instance of C1 at a concrete one-failure run. -/
theorem failed_site_is_all_null_and_does_not_halt_witness :
    ("name" ∈ (⟨["name", "Lat", "Long"], [⟨"A", 1, 2⟩]⟩ : SiteFrame).cols ∧
      "Lat" ∈ (⟨["name", "Lat", "Long"], [⟨"A", 1, 2⟩]⟩ : SiteFrame).cols ∧
      "Long" ∈ (⟨["name", "Lat", "Long"], [⟨"A", 1, 2⟩]⟩ : SiteFrame).cols) ∧
    ((processSite ⟨20, 17/20⟩ ⟨"A", 1, 2⟩ (Fetch.err "offline")).cf = none ∧
      ∃ e, (processSite ⟨20, 17/20⟩ ⟨"A", 1, 2⟩ (Fetch.err "offline")).error = some e ∧
        0 < e.length) :=
  by
  have h := failed_site_is_all_null_and_does_not_halt ⟨20, 17/20⟩ ⟨"A", 1, 2⟩ "offline"
    ⟨["name", "Lat", "Long"], [⟨"A", 1, 2⟩]⟩ (fun _ => Fetch.err "offline")
    (by decide) (by decide) (by decide)
  exact ⟨⟨by decide, by decide, by decide⟩, h.1.2.2.2.2, h.2.1⟩

/-- C2: when the required columns are present, the run succeeds and yields
exactly one SiteResult per input Site, in input order. -/
theorem resultset_matches_input_length_and_order
    (cfg : Config) (frame : SiteFrame) (oracle : ℕ → Fetch)
    (hn : "name" ∈ frame.cols) (hla : "Lat" ∈ frame.cols) (hlo : "Long" ∈ frame.cols) :
    runAnalysis cfg frame oracle = Except.ok (runResults cfg oracle 0 frame.rows) ∧
    (runResults cfg oracle 0 frame.rows).length = frame.rows.length ∧
    (runResults cfg oracle 0 frame.rows).map SiteResult.site
      = frame.rows.map SiteRow.name :=
  ⟨runAux_ok cfg frame.cols oracle hn hla hlo 0 frame.rows,
    runResults_length cfg oracle 0 frame.rows,
    runResults_map_site cfg oracle 0 frame.rows⟩

/-- Closed instance of C2 at a two-site run with one failure. -/
theorem resultset_matches_input_length_and_order_witness :
    ("name" ∈ (["name", "Lat", "Long"] : List String) ∧
      "Lat" ∈ (["name", "Lat", "Long"] : List String) ∧
      "Long" ∈ (["name", "Lat", "Long"] : List String)) ∧
    ((runResults ⟨20, 17/20⟩
        (fun i => if i = 0 then Fetch.ok [1500000] [1700000] else Fetch.err "boom")
        0 [⟨"A", 1, 2⟩, ⟨"B", 3, 4⟩]).length = 2 ∧
      (runResults ⟨20, 17/20⟩
        (fun i => if i = 0 then Fetch.ok [1500000] [1700000] else Fetch.err "boom")
        0 [⟨"A", 1, 2⟩, ⟨"B", 3, 4⟩]).map SiteResult.site = ["A", "B"]) := by
  have h := resultset_matches_input_length_and_order ⟨20, 17/20⟩
    ⟨["name", "Lat", "Long"], [⟨"A", 1, 2⟩, ⟨"B", 3, 4⟩]⟩
    (fun i => if i = 0 then Fetch.ok [1500000] [1700000] else Fetch.err "boom")
    (by decide) (by decide) (by decide)
  exact ⟨⟨by decide, by decide, by decide⟩, h.2.1, h.2.2⟩

/-- C3: for a site whose retrieval succeeds, the estimator computes
annual_GHI = sum(hourly GHI)/1000, annual_GII = sum(hourly POA)/1000,
specific_production = annual_GII × PR,
uplift_pct = ((annual_GII / annual_GHI) − 1) × 100,
capacity_factor_pct = (specific_production / 8760) × 100 rounded to 3 decimal
places (from the unrounded specific production), and rounds annual_GHI,
annual_GII, uplift_pct and specific_production to 1 decimal place for
presentation. -/
theorem estimator_computes_spec_formulas
    (cfg : Config) (row : SiteRow) (ghiSeries poaSeries : List ℚ) :
    (processSite cfg row (Fetch.ok ghiSeries poaSeries)).ghi
        = some (pyRound (ghiSeries.sum / 1000) 1) ∧
    (processSite cfg row (Fetch.ok ghiSeries poaSeries)).gii
        = some (pyRound (poaSeries.sum / 1000) 1) ∧
    (processSite cfg row (Fetch.ok ghiSeries poaSeries)).specificProduction
        = some (pyRound (poaSeries.sum / 1000 * cfg.pr) 1) ∧
    (processSite cfg row (Fetch.ok ghiSeries poaSeries)).uplift
        = some (pyRound ((poaSeries.sum / 1000 / (ghiSeries.sum / 1000) - 1) * 100) 1) ∧
    (processSite cfg row (Fetch.ok ghiSeries poaSeries)).cf
        = some (pyRound ((poaSeries.sum / 1000 * cfg.pr / 8760) * 100) 3) :=
  ⟨rfl, rfl, rfl, rfl, rfl⟩

/-- C9: a failure SiteResult keeps the site's identity cells (`Site`, `Lat`,
`Long`) unchanged from the input row; only the numeric yield fields are
nulled. -/
theorem failure_record_keeps_identity_fields
    (cfg : Config) (row : SiteRow) (msg : String) :
    (processSite cfg row (Fetch.err msg)).site = row.name ∧
    (processSite cfg row (Fetch.err msg)).lat = row.lat ∧
    (processSite cfg row (Fetch.err msg)).lon = row.lon ∧
    (processSite cfg row (Fetch.err msg)).ghi = none ∧
    (processSite cfg row (Fetch.err msg)).gii = none ∧
    (processSite cfg row (Fetch.err msg)).uplift = none ∧
    (processSite cfg row (Fetch.err msg)).specificProduction = none ∧
    (processSite cfg row (Fetch.err msg)).cf = none :=
  ⟨rfl, rfl, rfl, rfl, rfl, rfl, rfl, rfl⟩

/-! ### Claims C4, C5, C7, C10 -/

/-- C4 as stated is false: with tilt 20°, PR = 0.85 and series summing to
annual_GHI = 1500 and annual_GII = 1700 kWh/m², the capacity factor is
round(1445/8760·100, 3) = 16.495, not the claimed 16.496. -/
theorem fixed_series_cf_not_16496 :
    ¬ ((processSite ⟨20, 17/20⟩ ⟨"S1", 45, 8⟩
          (Fetch.ok [1500000] [1700000])).specificProduction = some 1445 ∧
       (processSite ⟨20, 17/20⟩ ⟨"S1", 45, 8⟩
          (Fetch.ok [1500000] [1700000])).cf = some (16496 / 1000) ∧
       (processSite ⟨20, 17/20⟩ ⟨"S1", 45, 8⟩
          (Fetch.ok [1500000] [1700000])).uplift = some (133 / 10)) := by
  with_unfolding_all decide

/-- C4 amended: for tilt 20°, PR = 0.85 and any hourly series whose sums give
annual_GHI = 1500 kWh/m² and annual_GII = 1700 kWh/m², the pipeline yields
specific_production = 1445.0, capacity_factor_pct = 16.495 and
uplift_pct = 13.3. -/
theorem fixed_series_yields_16495 (row : SiteRow) (ghiSeries poaSeries : List ℚ)
    (hg : ghiSeries.sum = 1500000) (hp : poaSeries.sum = 1700000) :
    (processSite ⟨20, 17/20⟩ row (Fetch.ok ghiSeries poaSeries)).specificProduction
        = some 1445 ∧
    (processSite ⟨20, 17/20⟩ row (Fetch.ok ghiSeries poaSeries)).cf
        = some (16495 / 1000) ∧
    (processSite ⟨20, 17/20⟩ row (Fetch.ok ghiSeries poaSeries)).uplift
        = some (133 / 10) := by
  refine ⟨?_, ?_, ?_⟩ <;>
    simp only [processSite, specificProd, annualGII, annualGHI, upliftPct, cfPercent,
      hg, hp, Option.some.injEq] <;>
    norm_num [pyRound, round_eq]

/-- Closed instance of C4 (amended) at a singleton hourly series. -/
theorem fixed_series_yields_16495_witness :
    ([(1500000 : ℚ)].sum = 1500000) ∧ ([(1700000 : ℚ)].sum = 1700000) ∧
    ((processSite ⟨20, 17/20⟩ ⟨"S1", 45, 8⟩
        (Fetch.ok [1500000] [1700000])).specificProduction = some 1445 ∧
      (processSite ⟨20, 17/20⟩ ⟨"S1", 45, 8⟩
        (Fetch.ok [1500000] [1700000])).cf = some (16495 / 1000) ∧
      (processSite ⟨20, 17/20⟩ ⟨"S1", 45, 8⟩
        (Fetch.ok [1500000] [1700000])).uplift = some (133 / 10)) := by
  have h1 : [(1500000 : ℚ)].sum = 1500000 := by simp
  have h2 : [(1700000 : ℚ)].sum = 1700000 := by simp
  exact ⟨h1, h2, fixed_series_yields_16495 ⟨"S1", 45, 8⟩ _ _ h1 h2⟩

/-- C5 as stated is false: a frame lacking the required `name` column but
containing no rows does not fail — the per-site loop never runs, the missing
column is never touched, and the run completes with an empty ResultSet. -/
theorem missing_column_empty_frame_runs_ok :
    "name" ∉ (⟨["Lat", "Long"], []⟩ : SiteFrame).cols ∧
    runAnalysis ⟨20, 17/20⟩ ⟨["Lat", "Long"], []⟩ (fun _ => Fetch.err "offline")
      = Except.ok [] :=
  ⟨by decide, rfl⟩

/-- C5 amended: an unreadable/non-tabular file aborts the run with its parse
error; and if a required column is absent while the parsed site list has at
least one row, the run fails fatally with a single `KeyError`, raised at the
first row access before any SiteResult is produced or any retrieval happens
(an empty parsed site list leaves a missing column undetected). -/
theorem missing_column_with_rows_aborts
    (cfg : Config) (frame : SiteFrame) (oracle : ℕ → Fetch) (parseErr : String)
    (hne : frame.rows ≠ [])
    (hmiss : "name" ∉ frame.cols ∨ "Lat" ∉ frame.cols ∨ "Long" ∉ frame.cols) :
    fullRun cfg (Except.error parseErr) oracle = Except.error parseErr ∧
    ∃ e, fullRun cfg (Except.ok frame) oracle = Except.error e := by
  refine ⟨rfl, ?_⟩
  show ∃ e, runAnalysis cfg frame oracle = Except.error e
  obtain ⟨row, rest, hr⟩ : ∃ row rest, frame.rows = row :: rest := by
    cases h : frame.rows with
    | nil => exact absurd h hne
    | cons a l => exact ⟨a, l, rfl⟩
  unfold runAnalysis
  rw [hr]
  by_cases h1 : "name" ∈ frame.cols
  · by_cases h2 : "Lat" ∈ frame.cols
    · by_cases h3 : "Long" ∈ frame.cols
      · tauto
      · exact ⟨"KeyError: Long", by simp [runAux, h1, h2, h3]⟩
    · exact ⟨"KeyError: Lat", by simp [runAux, h1, h2]⟩
  · exact ⟨"KeyError: name", by simp [runAux, h1]⟩

/-- Closed instance of C5 (amended): one row, `name` column absent. -/
theorem missing_column_with_rows_aborts_witness :
    ((⟨["Lat", "Long"], [⟨"A", 1, 2⟩]⟩ : SiteFrame).rows ≠ [] ∧
      ("name" ∉ (⟨["Lat", "Long"], [⟨"A", 1, 2⟩]⟩ : SiteFrame).cols ∨
        "Lat" ∉ (⟨["Lat", "Long"], [⟨"A", 1, 2⟩]⟩ : SiteFrame).cols ∨
        "Long" ∉ (⟨["Lat", "Long"], [⟨"A", 1, 2⟩]⟩ : SiteFrame).cols)) ∧
    (fullRun ⟨20, 17/20⟩ (Except.error "not tabular") (fun _ => Fetch.err "offline")
        = Except.error "not tabular" ∧
      ∃ e, fullRun ⟨20, 17/20⟩ (Except.ok ⟨["Lat", "Long"], [⟨"A", 1, 2⟩]⟩)
          (fun _ => Fetch.err "offline") = Except.error e) :=
  ⟨⟨by decide, by decide⟩,
    missing_column_with_rows_aborts ⟨20, 17/20⟩ ⟨["Lat", "Long"], [⟨"A", 1, 2⟩]⟩
      (fun _ => Fetch.err "offline") "not tabular" (by decide) (by decide)⟩

/-- C7: for a successful site, capacity_factor_pct lies in [0, 100], given
physically valid (non-negative) plane-of-array irradiance whose resulting
specific production is at most 8760 and a performance ratio in the slider
range [0.5, 1]. -/
theorem cf_percent_within_zero_hundred
    (cfg : Config) (poaSeries : List ℚ)
    (hpoa : ∀ x ∈ poaSeries, 0 ≤ x)
    (hpr0 : 1 / 2 ≤ cfg.pr) (hpr1 : cfg.pr ≤ 1)
    (hcap : specificProd cfg poaSeries ≤ 8760) :
    0 ≤ cfPercent cfg poaSeries ∧ cfPercent cfg poaSeries ≤ 100 := by
  have hsum : 0 ≤ poaSeries.sum := List.sum_nonneg hpoa
  have hsp : 0 ≤ specificProd cfg poaSeries := by
    unfold specificProd annualGII
    exact mul_nonneg (div_nonneg hsum (by norm_num)) (by linarith)
  have hx0 : 0 ≤ specificProd cfg poaSeries / 8760 * 100 :=
    mul_nonneg (div_nonneg hsp (by norm_num)) (by norm_num)
  have hx1 : specificProd cfg poaSeries / 8760 * 100 ≤ 100 := by
    have hd : specificProd cfg poaSeries / 8760 ≤ 1 := by
      rw [div_le_one (by norm_num)]
      exact hcap
    linarith
  exact ⟨pyRound_nonneg 3 hx0, pyRound_le_hundred 3 hx1⟩

/-- Closed instance of C7 at a concrete successful site. -/
theorem cf_percent_within_zero_hundred_witness :
    (∀ x ∈ ([1700000] : List ℚ), 0 ≤ x) ∧
    (1 / 2 ≤ (⟨20, 17/20⟩ : Config).pr) ∧ ((⟨20, 17/20⟩ : Config).pr ≤ 1) ∧
    specificProd ⟨20, 17/20⟩ [1700000] ≤ 8760 ∧
    (0 ≤ cfPercent ⟨20, 17/20⟩ [1700000] ∧ cfPercent ⟨20, 17/20⟩ [1700000] ≤ 100) := by
  have h1 : ∀ x ∈ ([1700000] : List ℚ), 0 ≤ x := by
    with_unfolding_all decide
  have h2 : (1 : ℚ) / 2 ≤ (⟨20, 17/20⟩ : Config).pr := by
    with_unfolding_all decide
  have h3 : (⟨20, 17/20⟩ : Config).pr ≤ 1 := by
    with_unfolding_all decide
  have h4 : specificProd ⟨20, 17/20⟩ [1700000] ≤ 8760 := by
    with_unfolding_all decide
  exact ⟨h1, h2, h3, h4, cf_percent_within_zero_hundred ⟨20, 17/20⟩ [1700000] h1 h2 h3 h4⟩

/-- C10: capacity_factor_pct is computed from the unrounded specific
production, CF (%) = round((annual_GII × PR / 8760) × 100, 3); and for the
concrete site with PR = 0.8 and POA sum 1806300 Wh (GII = 1806.3,
specific production 1445.04, exported as 1445.0), recomputing CF from the
exported Specific Production column does not reproduce the exported
CF (%) = 16.496. -/
theorem cf_from_unrounded_specific_production :
    (∀ (cfg : Config) (poaSeries : List ℚ),
        cfPercent cfg poaSeries
          = pyRound (annualGII poaSeries * cfg.pr / 8760 * 100) 3) ∧
    ((processSite ⟨20, 4/5⟩ ⟨"S1", 45, 8⟩
        (Fetch.ok [1500000] [1806300])).specificProduction = some 1445 ∧
      (processSite ⟨20, 4/5⟩ ⟨"S1", 45, 8⟩
        (Fetch.ok [1500000] [1806300])).cf = some (16496 / 1000) ∧
      pyRound (1445 / 8760 * 100) 3 ≠ (16496 / 1000 : ℚ)) := by
  refine ⟨fun cfg poaSeries => rfl, ?_, ?_, ?_⟩ <;> with_unfolding_all decide

/-! ### Inversion of a successful run -/

theorem runAux_ok_inv (cfg : Config) (cols : List String) (oracle : ℕ → Fetch)
    (i : ℕ) (rows : List SiteRow) (rs : List SiteResult)
    (h : runAux cfg cols oracle i rows = Except.ok rs) :
    rs = runResults cfg oracle i rows := by
  induction rows generalizing i rs with
  | nil =>
    simp only [runAux] at h
    cases h
    rfl
  | cons row rest ih =>
    simp only [runAux] at h
    by_cases h1 : "name" ∈ cols
    · rw [if_pos h1] at h
      by_cases h2 : "Lat" ∈ cols
      · rw [if_pos h2] at h
        by_cases h3 : "Long" ∈ cols
        · rw [if_pos h3] at h
          cases hrec : runAux cfg cols oracle (i + 1) rest with
          | ok rs' =>
            rw [hrec] at h
            cases h
            show processSite cfg row (oracle i) :: rs'
              = processSite cfg row (oracle i) :: runResults cfg oracle (i + 1) rest
            rw [ih (i + 1) rs' hrec]
          | error e =>
            rw [hrec] at h
            cases h
        · rw [if_neg h3] at h
          cases h
      · rw [if_neg h2] at h
        cases h
    · rw [if_neg h1] at h
      cases h

/-! ### Helper lemmas for the chart data -/

theorem processSite_valid_iff (cfg : Config) (row : SiteRow) (f : Fetch) :
    (processSite cfg row f).cf.isSome = true ↔ (processSite cfg row f).error = none := by
  cases f <;> simp [processSite]

theorem mem_insertDesc (p q : String × ℚ) (l : List (String × ℚ)) :
    p ∈ insertDesc q l ↔ p = q ∨ p ∈ l := by
  induction l with
  | nil => simp [insertDesc]
  | cons a rest ih =>
    by_cases h : a.2 ≤ q.2 <;> simp [insertDesc, h, ih] <;> tauto

theorem mem_sortDesc (p : String × ℚ) (l : List (String × ℚ)) :
    p ∈ sortDesc l ↔ p ∈ l := by
  induction l with
  | nil => simp [sortDesc]
  | cons a rest ih => simp [sortDesc, mem_insertDesc, ih]

/-- C6: the histogram/boxplot series and the ranked bar chart consider exactly
the sites whose error is null (the `dropna` on the CF column keeps precisely
the error-free records of a run), and when every site failed the chart data
is empty — the selection functions are total, so the empty charts render
without crashing. -/
theorem charts_consider_only_error_free_sites
    (cfg : Config) (frame : SiteFrame) (oracle : ℕ → Fetch) (rs : List SiteResult)
    (hrun : runAnalysis cfg frame oracle = Except.ok rs) :
    validResults rs = rs.filter (fun r => decide (r.error = none)) ∧
    (∀ r ∈ validResults rs, r.error = none) ∧
    (∀ p ∈ barChartData rs, ∃ r ∈ validResults rs, p.1 = r.site ∧ r.cf = some p.2) ∧
    ((∀ r ∈ rs, r.error ≠ none) →
      validResults rs = [] ∧ cfValues rs = [] ∧ barChartData rs = []) := by
  have hshape : ∀ r ∈ rs, (r.cf.isSome = true ↔ r.error = none) := by
    intro r hmem
    rw [runAux_ok_inv cfg frame.cols oracle 0 frame.rows rs hrun] at hmem
    obtain ⟨j, row, _, rfl⟩ := runResults_mem cfg oracle 0 frame.rows r hmem
    exact processSite_valid_iff cfg row (oracle j)
  have hvalid : ∀ r ∈ validResults rs, r.error = none := by
    intro r hmem
    obtain ⟨hin, hcf⟩ := List.mem_filter.mp hmem
    exact (hshape r hin).mp hcf
  refine ⟨?_, hvalid, ?_, ?_⟩
  · apply List.filter_congr
    intro r hmem
    rw [Bool.eq_iff_iff, decide_eq_true_eq]
    exact hshape r hmem
  · intro p hp
    rw [barChartData, mem_sortDesc] at hp
    obtain ⟨r, hr, hmap⟩ := List.mem_filterMap.mp hp
    obtain ⟨c, hc, hpc⟩ := Option.map_eq_some'.mp hmap
    exact ⟨r, hr, by rw [← hpc], by rw [← hpc, hc]⟩
  · intro hfail
    have hempty : validResults rs = [] := by
      rw [validResults, List.filter_eq_nil_iff]
      intro r hmem
      simp only [Bool.not_eq_true, Bool.not_eq_true']
      rw [← Bool.not_eq_true]
      intro hcf
      exact hfail r hmem ((hshape r hmem).mp hcf)
    refine ⟨hempty, ?_, ?_⟩
    · rw [cfValues, hempty]
      rfl
    · rw [barChartData, hempty]
      rfl

/-- Closed instance of C6 at an all-failed single-site run. -/
theorem charts_consider_only_error_free_sites_witness :
    runAnalysis ⟨20, 17/20⟩ ⟨["name", "Lat", "Long"], [⟨"A", 1, 2⟩]⟩
        (fun _ => Fetch.err "boom")
      = Except.ok (runResults ⟨20, 17/20⟩ (fun _ => Fetch.err "boom") 0 [⟨"A", 1, 2⟩]) ∧
    (∀ r ∈ runResults ⟨20, 17/20⟩ (fun _ => Fetch.err "boom") 0 [⟨"A", 1, 2⟩],
      r.error ≠ none) ∧
    (validResults (runResults ⟨20, 17/20⟩ (fun _ => Fetch.err "boom") 0 [⟨"A", 1, 2⟩]) = [] ∧
      cfValues (runResults ⟨20, 17/20⟩ (fun _ => Fetch.err "boom") 0 [⟨"A", 1, 2⟩]) = [] ∧
      barChartData (runResults ⟨20, 17/20⟩ (fun _ => Fetch.err "boom") 0 [⟨"A", 1, 2⟩]) = []) := by
  have hrun : runAnalysis ⟨20, 17/20⟩ ⟨["name", "Lat", "Long"], [⟨"A", 1, 2⟩]⟩
      (fun _ => Fetch.err "boom")
      = Except.ok (runResults ⟨20, 17/20⟩ (fun _ => Fetch.err "boom") 0 [⟨"A", 1, 2⟩]) := by
    with_unfolding_all rfl
  have hfail : ∀ r ∈ runResults ⟨20, 17/20⟩ (fun _ => Fetch.err "boom") 0 [⟨"A", 1, 2⟩],
      r.error ≠ none := by
    with_unfolding_all decide
  exact ⟨hrun, hfail,
    (charts_consider_only_error_free_sites ⟨20, 17/20⟩
      ⟨["name", "Lat", "Long"], [⟨"A", 1, 2⟩]⟩ (fun _ => Fetch.err "boom")
      (runResults ⟨20, 17/20⟩ (fun _ => Fetch.err "boom") 0 [⟨"A", 1, 2⟩])
      hrun).2.2.2 hfail⟩

/-! ### Structural model of the spreadsheet export (lines 111 and 126–129) -/

/-- One spreadsheet cell: a string, a number, or a null/NaN cell (written as
an empty cell by `to_excel`). -/
inductive Cell where
  | str (v : String)
  | num (v : ℚ)
  | na
  deriving DecidableEq

/-- A null numeric field becomes a null cell, a present one a number cell. -/
def optCell : Option ℚ → Cell
  | none => Cell.na
  | some q => Cell.num q

/-- The ordered key/cell pairs of the Python dict appended to `results` for
one site: on success the eight keys of lines 84–93; on failure the six keys
of lines 96–103 — the failure dict carries no `GHI (kWh/m²)` or `Uplift (%)`
key at all, and explicit `None` (null) cells for the other numeric keys. -/
def recordPairs (r : SiteResult) : List (String × Cell) :=
  match r.error with
  | none =>
    [("Site", Cell.str r.site), ("Lat", Cell.num r.lat), ("Long", Cell.num r.lon),
      ("GHI (kWh/m²)", optCell r.ghi), ("GII (kWh/m²)", optCell r.gii),
      ("Uplift (%)", optCell r.uplift),
      ("Specific Production (kWh/kWp)", optCell r.specificProduction),
      ("CF (%)", optCell r.cf)]
  | some _ =>
    [("Site", Cell.str r.site), ("Lat", Cell.num r.lat), ("Long", Cell.num r.lon),
      ("GII (kWh/m²)", Cell.na), ("Specific Production (kWh/kWp)", Cell.na),
      ("CF (%)", Cell.na)]

/-- First value stored under key `c`, as a pandas column access does. -/
def cellLookup (c : String) : List (String × Cell) → Option Cell
  | [] => none
  | (k, v) :: rest => if k = c then some v else cellLookup c rest

/-- Append the not-yet-seen keys of one record to the running column list
(`pd.DataFrame` keeps columns in first-occurrence order across the dicts). -/
def addCols (acc : List String) (kvs : List (String × Cell)) : List String :=
  acc ++ (kvs.map Prod.fst).filter (fun c => decide (c ∉ acc))

/-- Fold `addCols` over all records, starting from no columns. -/
def collectColsAux : List String → List (List (String × Cell)) → List String
  | acc, [] => acc
  | acc, kvs :: rest => collectColsAux (addCols acc kvs) rest

/-- The column list of `pd.DataFrame(results)`. -/
def frameCols (rs : List SiteResult) : List String :=
  collectColsAux [] (rs.map recordPairs)

/-- One data row aligned with the column list; a key absent from the record
yields a null (NaN) cell. -/
def rowCells (cols : List String) (kvs : List (String × Cell)) : List Cell :=
  cols.map (fun c => (cellLookup c kvs).getD Cell.na)

/-- The exported table: header row plus aligned data rows, exactly what
`result_df.to_excel(writer, index=False)` serializes (line 128).  It is a
pure function of the ResultSet, so an on-demand regeneration from the same
ResultSet is identical by construction. -/
structure ResultFrame where
  cols : List String
  cells : List (List Cell)
  deriving DecidableEq

/-- `result_df = pd.DataFrame(results)` (line 111) followed by the structural
content of the exported sheet. -/
def mkFrame (rs : List SiteResult) : ResultFrame :=
  { cols := frameCols rs
    cells := (rs.map recordPairs).map (rowCells (frameCols rs)) }

/-- Position of column `c` in the header, as a re-import resolves names. -/
def colIdx (c : String) : List String → Option ℕ
  | [] => none
  | c0 :: rest => if c0 = c then some 0 else (colIdx c rest).map (· + 1)

/-- Modelled from the spec: re-importing the downloaded spreadsheet ("Export
round-trip: re-importing the downloaded spreadsheet reproduces the same
ResultSet field values") — reading the cell of one row under a header name;
a column absent from the sheet reads as null. -/
def readRowCell (cols : List String) (row : List Cell) (c : String) : Cell :=
  match colIdx c cols with
  | none => Cell.na
  | some j => (row.get? j).getD Cell.na

/-- Modelled from the spec: the cell of row `i`, column `c`, of the
re-imported spreadsheet. -/
def readCell (f : ResultFrame) (i : ℕ) (c : String) : Cell :=
  match f.cells.get? i with
  | none => Cell.na
  | some row => readRowCell f.cols row c

/-! ### Helper lemmas for the export model -/

theorem readRowCell_rowCells (kvs : List (String × Cell)) (c : String) :
    ∀ cols : List String,
      readRowCell cols (rowCells cols kvs) c
        = if c ∈ cols then (cellLookup c kvs).getD Cell.na else Cell.na
  | [] => by simp [readRowCell, colIdx, rowCells]
  | c0 :: rest => by
    by_cases h : c0 = c
    · subst h
      simp [readRowCell, colIdx, rowCells]
    · have ih := readRowCell_rowCells kvs c rest
      have hcc : (c ∈ c0 :: rest) ↔ (c ∈ rest) := by
        rw [List.mem_cons]
        exact ⟨fun hm => hm.elim (fun he => absurd he.symm h) id, Or.inr⟩
      rw [if_congr hcc rfl rfl, ← ih]
      cases hidx : colIdx c rest with
      | none => simp [readRowCell, colIdx, rowCells, h, hidx]
      | some j => simp [readRowCell, colIdx, rowCells, h, hidx]

theorem cellLookup_eq_none (c : String) :
    ∀ kvs : List (String × Cell), c ∉ kvs.map Prod.fst → cellLookup c kvs = none
  | [], _ => rfl
  | (k, v) :: rest, h => by
    simp only [List.map_cons, List.mem_cons] at h
    push_neg at h
    rw [cellLookup, if_neg (fun hk => h.1 hk.symm)]
    exact cellLookup_eq_none c rest h.2

theorem subset_collectColsAux :
    ∀ (recs : List (List (String × Cell))) (acc : List String),
      acc ⊆ collectColsAux acc recs
  | [], _ => fun _ hx => hx
  | kvs :: rest, acc => fun x hx =>
    subset_collectColsAux rest (addCols acc kvs) (List.mem_append_left _ hx)

theorem mem_addCols (acc : List String) (kvs : List (String × Cell)) (c : String)
    (h : c ∈ kvs.map Prod.fst) : c ∈ addCols acc kvs := by
  unfold addCols
  by_cases hc : c ∈ acc
  · exact List.mem_append_left _ hc
  · exact List.mem_append_right _ (List.mem_filter.mpr ⟨h, by simp [hc]⟩)

theorem keys_mem_collectColsAux :
    ∀ (recs : List (List (String × Cell))) (acc : List String)
      (kvs : List (String × Cell)), kvs ∈ recs →
      ∀ c ∈ kvs.map Prod.fst, c ∈ collectColsAux acc recs
  | [], _, _, h => absurd h (List.not_mem_nil _)
  | kvs0 :: rest, acc, kvs, h => by
    intro c hc
    show c ∈ collectColsAux (addCols acc kvs0) rest
    rcases List.mem_cons.mp h with rfl | h'
    · exact subset_collectColsAux rest (addCols acc kvs) (mem_addCols acc kvs c hc)
    · exact keys_mem_collectColsAux rest (addCols acc kvs0) kvs h' c hc

theorem readCell_mkFrame (rs : List SiteResult) (i : ℕ) (r : SiteResult)
    (hr : rs.get? i = some r) (c : String) :
    readCell (mkFrame rs) i c = (cellLookup c (recordPairs r)).getD Cell.na := by
  have hcell : ((rs.map recordPairs).map (rowCells (frameCols rs))).get? i
      = some (rowCells (frameCols rs) (recordPairs r)) := by
    rw [List.get?_map, List.get?_map, hr]
    rfl
  have h1 : readCell (mkFrame rs) i c
      = readRowCell (frameCols rs) (rowCells (frameCols rs) (recordPairs r)) c := by
    simp only [readCell, mkFrame, hcell]
  rw [h1, readRowCell_rowCells]
  by_cases hc : c ∈ frameCols rs
  · rw [if_pos hc]
  · rw [if_neg hc]
    have hnone : cellLookup c (recordPairs r) = none := by
      apply cellLookup_eq_none
      intro hkey
      exact hc (keys_mem_collectColsAux (rs.map recordPairs) [] (recordPairs r)
        (List.mem_map_of_mem recordPairs (List.get?_mem hr)) c hkey)
    rw [hnone]
    rfl

/-- C8: the exported table is a pure (hence deterministic) structural function
of the ResultSet, and re-importing it reproduces every SiteResult field value
of every row — string identity cells come back as written, and each numeric
field comes back as its number when present and as a null cell when null
(including the failure rows whose GHI/Uplift keys were never written). -/
theorem export_structure_roundtrip
    (cfg : Config) (frame : SiteFrame) (oracle : ℕ → Fetch) (rs : List SiteResult)
    (hrun : runAnalysis cfg frame oracle = Except.ok rs)
    (i : ℕ) (r : SiteResult) (hr : rs.get? i = some r) :
    readCell (mkFrame rs) i "Site" = Cell.str r.site ∧
    readCell (mkFrame rs) i "Lat" = Cell.num r.lat ∧
    readCell (mkFrame rs) i "Long" = Cell.num r.lon ∧
    readCell (mkFrame rs) i "GHI (kWh/m²)" = optCell r.ghi ∧
    readCell (mkFrame rs) i "GII (kWh/m²)" = optCell r.gii ∧
    readCell (mkFrame rs) i "Uplift (%)" = optCell r.uplift ∧
    readCell (mkFrame rs) i "Specific Production (kWh/kWp)" = optCell r.specificProduction ∧
    readCell (mkFrame rs) i "CF (%)" = optCell r.cf := by
  have hmem : r ∈ rs := List.get?_mem hr
  rw [runAux_ok_inv cfg frame.cols oracle 0 frame.rows rs hrun] at hmem
  obtain ⟨j, row, _, hshape⟩ := runResults_mem cfg oracle 0 frame.rows r hmem
  refine ⟨?_, ?_, ?_, ?_, ?_, ?_, ?_, ?_⟩ <;> rw [readCell_mkFrame rs i r hr] <;>
    rw [hshape] <;> cases oracle j <;>
    simp [processSite, recordPairs, cellLookup, optCell]

/-- Closed instance of C8 at the failure row of a two-site run. -/
theorem export_structure_roundtrip_witness :
    runAnalysis ⟨20, 17/20⟩ ⟨["name", "Lat", "Long"], [⟨"A", 1, 2⟩, ⟨"B", 3, 4⟩]⟩
        (fun i => if i = 0 then Fetch.ok [1500000] [1700000] else Fetch.err "boom")
      = Except.ok (runResults ⟨20, 17/20⟩
          (fun i => if i = 0 then Fetch.ok [1500000] [1700000] else Fetch.err "boom")
          0 [⟨"A", 1, 2⟩, ⟨"B", 3, 4⟩]) ∧
    (runResults ⟨20, 17/20⟩
        (fun i => if i = 0 then Fetch.ok [1500000] [1700000] else Fetch.err "boom")
        0 [⟨"A", 1, 2⟩, ⟨"B", 3, 4⟩]).get? 1
      = some (processSite ⟨20, 17/20⟩ ⟨"B", 3, 4⟩ (Fetch.err "boom")) ∧
    (readCell (mkFrame (runResults ⟨20, 17/20⟩
        (fun i => if i = 0 then Fetch.ok [1500000] [1700000] else Fetch.err "boom")
        0 [⟨"A", 1, 2⟩, ⟨"B", 3, 4⟩])) 1 "Site" = Cell.str "B" ∧
      readCell (mkFrame (runResults ⟨20, 17/20⟩
        (fun i => if i = 0 then Fetch.ok [1500000] [1700000] else Fetch.err "boom")
        0 [⟨"A", 1, 2⟩, ⟨"B", 3, 4⟩])) 1 "GHI (kWh/m²)" = Cell.na ∧
      readCell (mkFrame (runResults ⟨20, 17/20⟩
        (fun i => if i = 0 then Fetch.ok [1500000] [1700000] else Fetch.err "boom")
        0 [⟨"A", 1, 2⟩, ⟨"B", 3, 4⟩])) 1 "CF (%)" = Cell.na) := by
  have hrun : runAnalysis ⟨20, 17/20⟩ ⟨["name", "Lat", "Long"], [⟨"A", 1, 2⟩, ⟨"B", 3, 4⟩]⟩
      (fun i => if i = 0 then Fetch.ok [1500000] [1700000] else Fetch.err "boom")
      = Except.ok (runResults ⟨20, 17/20⟩
          (fun i => if i = 0 then Fetch.ok [1500000] [1700000] else Fetch.err "boom")
          0 [⟨"A", 1, 2⟩, ⟨"B", 3, 4⟩]) := by
    with_unfolding_all rfl
  have hr : (runResults ⟨20, 17/20⟩
      (fun i => if i = 0 then Fetch.ok [1500000] [1700000] else Fetch.err "boom")
      0 [⟨"A", 1, 2⟩, ⟨"B", 3, 4⟩]).get? 1
      = some (processSite ⟨20, 17/20⟩ ⟨"B", 3, 4⟩ (Fetch.err "boom")) := by
    with_unfolding_all rfl
  have h := export_structure_roundtrip ⟨20, 17/20⟩
    ⟨["name", "Lat", "Long"], [⟨"A", 1, 2⟩, ⟨"B", 3, 4⟩]⟩
    (fun i => if i = 0 then Fetch.ok [1500000] [1700000] else Fetch.err "boom")
    (runResults ⟨20, 17/20⟩
      (fun i => if i = 0 then Fetch.ok [1500000] [1700000] else Fetch.err "boom")
      0 [⟨"A", 1, 2⟩, ⟨"B", 3, 4⟩])
    hrun 1 (processSite ⟨20, 17/20⟩ ⟨"B", 3, 4⟩ (Fetch.err "boom")) hr
  exact ⟨hrun, hr, h.1, h.2.2.2.1, h.2.2.2.2.2.2.2⟩

end SolarCF
